import Mathlib

/-
Verification of the forward-kinematics solver of exc_analysis
(function draw_exc in exc_analysis/plotting.py).

The geometry-constant dictionary exc from the kinematics module is modelled
as an immutable record of real constants; the 4-element actuator state
vector (bm, sk, bk, sw) as a record of four reals.  The angle recovery and
position chaining of draw_exc are embedded over the real numbers, and a
second, float-faithful model (FF below) tracks the NaN behaviour of
np.arccos, math.sqrt and division so that the domain-error handling of the
code can be settled exactly.
-/

open Real

noncomputable section

/-- Geometry constants of the excavator linkage: the entries of the exc
dictionary read by draw_exc (link lengths a1..a4, cylinder offsets, pivot
distances, fixed angular offsets). -/
structure Exc where
  a1 : ℝ
  a2 : ℝ
  a3 : ℝ
  a4 : ℝ
  r_cyl1 : ℝ
  r_cyl2 : ℝ
  r_cyl3 : ℝ
  r_o1a : ℝ
  r_o1b : ℝ
  r_o2c : ℝ
  r_o2d : ℝ
  r_ef : ℝ
  r_fh : ℝ
  r_o3f : ℝ
  r_o3g : ℝ
  r_gh : ℝ
  a_b12 : ℝ
  a_a1x1 : ℝ
  a_12c : ℝ
  a_d23 : ℝ
  a_dfe : ℝ
  a_g34 : ℝ
  a_23d : ℝ

/-- The 1-D actuator state vector of length 4: state[0] = bm (boom cylinder
extension), state[1] = sk (stick), state[2] = bk (bucket), state[3] = sw
(swing angle in radians). -/
structure ExcState where
  bm : ℝ
  sk : ℝ
  bk : ℝ
  sw : ℝ

/-- A 3D point, one entry of the position arrays built by draw_exc. -/
@[ext]
structure Point3 where
  x : ℝ
  y : ℝ
  z : ℝ

namespace DrawExc

/-- t1 = state[3], the swing angle. -/
def t1 (s : ExcState) : ℝ := s.sw

/-- r_c1 = state[0] + exc[r_cyl1], the effective boom-cylinder side. -/
def r_c1 (e : Exc) (s : ExcState) : ℝ := s.bm + e.r_cyl1

/-- The argument passed to np.arccos for the boom triangle. -/
def a_a1b_arg (e : Exc) (s : ExcState) : ℝ :=
  (e.r_o1b ^ 2 + e.r_o1a ^ 2 - r_c1 e s ^ 2) / (2 * e.r_o1b * e.r_o1a)

/-- a_a1b = arccos of the boom law-of-cosines argument. -/
def a_a1b (e : Exc) (s : ExcState) : ℝ := Real.arccos (a_a1b_arg e s)

/-- t2 = a_a1b - exc[a_b12] - exc[a_a1x1], the boom joint angle. -/
def t2 (e : Exc) (s : ExcState) : ℝ := a_a1b e s - e.a_b12 - e.a_a1x1

/-- r_c2 = state[1] + exc[r_cyl2], the effective stick-cylinder side. -/
def r_c2 (e : Exc) (s : ExcState) : ℝ := s.sk + e.r_cyl2

/-- The argument passed to np.arccos for the stick triangle. -/
def a_c2d_arg (e : Exc) (s : ExcState) : ℝ :=
  (e.r_o2c ^ 2 + e.r_o2d ^ 2 - r_c2 e s ^ 2) / (2 * e.r_o2c * e.r_o2d)

/-- a_c2d = arccos of the stick law-of-cosines argument. -/
def a_c2d (e : Exc) (s : ExcState) : ℝ := Real.arccos (a_c2d_arg e s)

/-- t3 = 3 pi - exc[a_12c] - a_c2d - exc[a_d23], the stick joint angle. -/
def t3 (e : Exc) (s : ExcState) : ℝ := 3 * π - e.a_12c - a_c2d e s - e.a_d23

/-- r_c3 = state[2] + exc[r_cyl3], the effective bucket-cylinder side. -/
def r_c3 (e : Exc) (s : ExcState) : ℝ := s.bk + e.r_cyl3

/-- The argument passed to np.arccos for the first bucket triangle. -/
def a_efh_arg (e : Exc) (s : ExcState) : ℝ :=
  (e.r_ef ^ 2 + e.r_fh ^ 2 - r_c3 e s ^ 2) / (2 * e.r_ef * e.r_fh)

/-- a_efh = arccos of the first bucket law-of-cosines argument. -/
def a_efh (e : Exc) (s : ExcState) : ℝ := Real.arccos (a_efh_arg e s)

/-- a_hf3 = pi - exc[a_dfe] - a_efh. -/
def a_hf3 (e : Exc) (s : ExcState) : ℝ := π - e.a_dfe - a_efh e s

/-- r_o3h = sqrt(r_o3f^2 + r_fh^2 - 2 r_o3f r_fh cos(a_hf3)), the auxiliary
diagonal of the bucket linkage (math.sqrt in the source). -/
def r_o3h (e : Exc) (s : ExcState) : ℝ :=
  Real.sqrt (e.r_o3f ^ 2 + e.r_fh ^ 2 - 2 * e.r_o3f * e.r_fh * Real.cos (a_hf3 e s))

/-- The argument passed to np.arccos for the angle a_f3h. -/
def a_f3h_arg (e : Exc) (s : ExcState) : ℝ :=
  (r_o3h e s ^ 2 + e.r_o3f ^ 2 - e.r_fh ^ 2) / (2 * r_o3h e s * e.r_o3f)

/-- a_f3h = arccos of its law-of-cosines argument. -/
def a_f3h (e : Exc) (s : ExcState) : ℝ := Real.arccos (a_f3h_arg e s)

/-- The argument passed to np.arccos for the angle a_h3g. -/
def a_h3g_arg (e : Exc) (s : ExcState) : ℝ :=
  (r_o3h e s ^ 2 + e.r_o3g ^ 2 - e.r_gh ^ 2) / (2 * r_o3h e s * e.r_o3g)

/-- a_h3g = arccos of its law-of-cosines argument. -/
def a_h3g (e : Exc) (s : ExcState) : ℝ := Real.arccos (a_h3g_arg e s)

/-- t4 = 3 pi - a_f3h - a_h3g - exc[a_g34] - exc[a_23d], the bucket joint
angle. -/
def t4 (e : Exc) (s : ExcState) : ℝ :=
  3 * π - a_f3h e s - a_h3g e s - e.a_g34 - e.a_23d

/-- c1 = cos(t1). -/
def c1 (s : ExcState) : ℝ := Real.cos (t1 s)

/-- c2 = cos(t2). -/
def c2 (e : Exc) (s : ExcState) : ℝ := Real.cos (t2 e s)

/-- c234 = cos(t2 + t3 + t4). -/
def c234 (e : Exc) (s : ExcState) : ℝ := Real.cos (t2 e s + t3 e s + t4 e s)

/-- c23 = cos(t2 + t3). -/
def c23 (e : Exc) (s : ExcState) : ℝ := Real.cos (t2 e s + t3 e s)

/-- s1 = sin(t1). -/
def s1 (s : ExcState) : ℝ := Real.sin (t1 s)

/-- s2 = sin(t2). -/
def s2 (e : Exc) (s : ExcState) : ℝ := Real.sin (t2 e s)

/-- s234 = sin(t2 + t3 + t4). -/
def s234 (e : Exc) (s : ExcState) : ℝ := Real.sin (t2 e s + t3 e s + t4 e s)

/-- s23 = sin(t2 + t3). -/
def s23 (e : Exc) (s : ExcState) : ℝ := Real.sin (t2 e s + t3 e s)

/-- The default value 17.1 of the keyword parameter gnd_offset of draw_exc. -/
def gnd_offset_default : ℝ := 17.1

/-- gnd = [0, 0, 0]. -/
def gnd : Point3 := ⟨0, 0, 0⟩

/-- base = [0, 0, gos] where gos = gnd_offset. -/
def base (gos : ℝ) : Point3 := ⟨0, 0, gos⟩

/-- o1 = [a1 c1, a1 s1, gos]. -/
def o1 (e : Exc) (s : ExcState) (gos : ℝ) : Point3 :=
  ⟨e.a1 * c1 s, e.a1 * s1 s, gos⟩

/-- o2 = [(a2 c2 + a1) c1, (a2 c2 + a1) s1, a2 s2 + gos]. -/
def o2 (e : Exc) (s : ExcState) (gos : ℝ) : Point3 :=
  ⟨(e.a2 * c2 e s + e.a1) * c1 s,
   (e.a2 * c2 e s + e.a1) * s1 s,
   e.a2 * s2 e s + gos⟩

/-- o3 = [(a2 c2 + a3 c23 + a1) c1, (a2 c2 + a3 c23 + a1) s1,
gos + a2 s2 + a3 s23]. -/
def o3 (e : Exc) (s : ExcState) (gos : ℝ) : Point3 :=
  ⟨(e.a2 * c2 e s + e.a3 * c23 e s + e.a1) * c1 s,
   (e.a2 * c2 e s + e.a3 * c23 e s + e.a1) * s1 s,
   gos + e.a2 * s2 e s + e.a3 * s23 e s⟩

/-- o4 = [(a4 c234 + a3 c23 + a2 c2 + a1) c1, (a4 c234 + a3 c23 + a2 c2 + a1) s1,
gos + a2 s2 + a3 s23 + a4 s234]. -/
def o4 (e : Exc) (s : ExcState) (gos : ℝ) : Point3 :=
  ⟨(e.a4 * c234 e s + e.a3 * c23 e s + e.a2 * c2 e s + e.a1) * c1 s,
   (e.a4 * c234 e s + e.a3 * c23 e s + e.a2 * c2 e s + e.a1) * s1 s,
   gos + e.a2 * s2 e s + e.a3 * s23 e s + e.a4 * s234 e s⟩

/-- The ordered sequence of joint positions computed by draw_exc, in the
order the code builds them: gnd, base, o1, o2, o3, o4. -/
def positions (e : Exc) (s : ExcState) (gos : ℝ) : List Point3 :=
  [gnd, base gos, o1 e s gos, o2 e s gos, o3 e s gos, o4 e s gos]

/-- The line segments l0..l4 drawn by draw_exc, as ordered endpoint pairs. -/
def segments (e : Exc) (s : ExcState) (gos : ℝ) : List (Point3 × Point3) :=
  [(gnd, base gos), (base gos, o1 e s gos), (o1 e s gos, o2 e s gos),
   (o2 e s gos, o3 e s gos), (o3 e s gos, o4 e s gos)]

/-- The full draw_exc call: the styling parameters lw, lock_axes and rotate
only affect matplotlib styling, never the computed geometry, so the
positions produced are those of the positions function. -/
def draw_exc (e : Exc) (s : ExcState) (lw : ℝ) (lock_axes : Bool)
    (rotate : Bool) (gos : ℝ) : List Point3 :=
  positions e s gos

/-- Euclidean distance between two 3D points. -/
def dist3 (p q : Point3) : ℝ :=
  Real.sqrt ((q.x - p.x) ^ 2 + (q.y - p.y) ^ 2 + (q.z - p.z) ^ 2)

/-- Rotation of a point by the angle d about the vertical axis through the
origin, leaving z unchanged. -/
def rotZ (d : ℝ) (p : Point3) : Point3 :=
  ⟨p.x * Real.cos d - p.y * Real.sin d,
   p.x * Real.sin d + p.y * Real.cos d,
   p.z⟩

end DrawExc

namespace FF

/-- A float value that may be NaN: some r is an ordinary value, none is NaN
(or a raised ZeroDivisionError / ValueError, which equally means that no
ordinary numeric value reaches the positions). -/
def F : Type := Option ℝ

/-- Lift a total binary real operation to NaN-propagating floats. -/
def fbin (f : ℝ → ℝ → ℝ) : F → F → F
  | some a, some b => some (f a b)
  | _, _ => none

/-- NaN-propagating addition. -/
def fadd : F → F → F := fbin (fun a b => a + b)

/-- NaN-propagating multiplication. -/
def fmul : F → F → F := fbin (fun a b => a * b)

/-- NaN-propagating cosine. -/
def fcos : F → F := Option.map Real.cos

/-- NaN-propagating sine. -/
def fsin : F → F := Option.map Real.sin

open Classical in
/-- Division: NaN propagates, and a zero divisor yields no ordinary value
(Python raises ZeroDivisionError there). -/
def fdiv : F → F → F
  | some a, some b => if b = 0 then none else some (a / b)
  | _, _ => none

open Classical in
/-- np.arccos: an argument inside the closed interval from -1 to 1 yields
the real arccosine; an argument outside it yields NaN (with only a runtime
warning); NaN propagates. -/
def farccos : F → F
  | some a => if -1 ≤ a ∧ a ≤ 1 then some (Real.arccos a) else none
  | none => none

open Classical in
/-- math.sqrt: defined for nonnegative arguments; a negative argument
raises ValueError and NaN propagates, both modelled as none. -/
def fsqrt : F → F
  | some a => if 0 ≤ a then some (Real.sqrt a) else none
  | none => none

/-- t1 = state[3] as a float (an input, hence an ordinary value). -/
def fft1 (s : ExcState) : F := some s.sw

/-- The boom arccos step of draw_exc under float semantics. -/
def ffa_a1b (e : Exc) (s : ExcState) : F :=
  farccos (fdiv (some (e.r_o1b ^ 2 + e.r_o1a ^ 2 - DrawExc.r_c1 e s ^ 2))
    (some (2 * e.r_o1b * e.r_o1a)))

/-- t2 under float semantics. -/
def fft2 (e : Exc) (s : ExcState) : F :=
  (ffa_a1b e s).map (fun v => v - e.a_b12 - e.a_a1x1)

/-- The stick arccos step of draw_exc under float semantics. -/
def ffa_c2d (e : Exc) (s : ExcState) : F :=
  farccos (fdiv (some (e.r_o2c ^ 2 + e.r_o2d ^ 2 - DrawExc.r_c2 e s ^ 2))
    (some (2 * e.r_o2c * e.r_o2d)))

/-- t3 under float semantics. -/
def fft3 (e : Exc) (s : ExcState) : F :=
  (ffa_c2d e s).map (fun v => 3 * π - e.a_12c - v - e.a_d23)

/-- The first bucket arccos step of draw_exc under float semantics. -/
def ffa_efh (e : Exc) (s : ExcState) : F :=
  farccos (fdiv (some (e.r_ef ^ 2 + e.r_fh ^ 2 - DrawExc.r_c3 e s ^ 2))
    (some (2 * e.r_ef * e.r_fh)))

/-- a_hf3 under float semantics. -/
def ffa_hf3 (e : Exc) (s : ExcState) : F :=
  (ffa_efh e s).map (fun v => π - e.a_dfe - v)

/-- r_o3h under float semantics (math.sqrt applied to the direct
law-of-cosines expression). -/
def ffr_o3h (e : Exc) (s : ExcState) : F :=
  fsqrt ((fcos (ffa_hf3 e s)).map
    (fun c => e.r_o3f ^ 2 + e.r_fh ^ 2 - 2 * e.r_o3f * e.r_fh * c))

/-- a_f3h under float semantics. -/
def ffa_f3h (e : Exc) (s : ExcState) : F :=
  farccos (fdiv ((ffr_o3h e s).map (fun r => r ^ 2 + e.r_o3f ^ 2 - e.r_fh ^ 2))
    ((ffr_o3h e s).map (fun r => 2 * r * e.r_o3f)))

/-- a_h3g under float semantics. -/
def ffa_h3g (e : Exc) (s : ExcState) : F :=
  farccos (fdiv ((ffr_o3h e s).map (fun r => r ^ 2 + e.r_o3g ^ 2 - e.r_gh ^ 2))
    ((ffr_o3h e s).map (fun r => 2 * r * e.r_o3g)))

/-- t4 under float semantics. -/
def fft4 (e : Exc) (s : ExcState) : F :=
  fbin (fun x y => 3 * π - x - y - e.a_g34 - e.a_23d) (ffa_f3h e s) (ffa_h3g e s)

/-- c1, c2, c23, c234, s1, s2, s23, s234 under float semantics. -/
def ffc1 (s : ExcState) : F := fcos (fft1 s)

/-- cos t2 under float semantics. -/
def ffc2 (e : Exc) (s : ExcState) : F := fcos (fft2 e s)

/-- cos (t2 + t3) under float semantics. -/
def ffc23 (e : Exc) (s : ExcState) : F := fcos (fadd (fft2 e s) (fft3 e s))

/-- cos (t2 + t3 + t4) under float semantics. -/
def ffc234 (e : Exc) (s : ExcState) : F :=
  fcos (fadd (fadd (fft2 e s) (fft3 e s)) (fft4 e s))

/-- sin t1 under float semantics. -/
def ffs1 (s : ExcState) : F := fsin (fft1 s)

/-- sin t2 under float semantics. -/
def ffs2 (e : Exc) (s : ExcState) : F := fsin (fft2 e s)

/-- sin (t2 + t3) under float semantics. -/
def ffs23 (e : Exc) (s : ExcState) : F := fsin (fadd (fft2 e s) (fft3 e s))

/-- sin (t2 + t3 + t4) under float semantics. -/
def ffs234 (e : Exc) (s : ExcState) : F :=
  fsin (fadd (fadd (fft2 e s) (fft3 e s)) (fft4 e s))

/-- A 3D point whose coordinates are floats that may be NaN. -/
def P := F × F × F

/-- o1 under float semantics. -/
def ffo1 (e : Exc) (s : ExcState) (gos : ℝ) : P :=
  (fmul (some e.a1) (ffc1 s), fmul (some e.a1) (ffs1 s), some gos)

/-- o2 under float semantics. -/
def ffo2 (e : Exc) (s : ExcState) (gos : ℝ) : P :=
  (fmul (fadd (fmul (some e.a2) (ffc2 e s)) (some e.a1)) (ffc1 s),
   fmul (fadd (fmul (some e.a2) (ffc2 e s)) (some e.a1)) (ffs1 s),
   fadd (fmul (some e.a2) (ffs2 e s)) (some gos))

/-- o3 under float semantics. -/
def ffo3 (e : Exc) (s : ExcState) (gos : ℝ) : P :=
  (fmul (fadd (fadd (fmul (some e.a2) (ffc2 e s)) (fmul (some e.a3) (ffc23 e s))) (some e.a1)) (ffc1 s),
   fmul (fadd (fadd (fmul (some e.a2) (ffc2 e s)) (fmul (some e.a3) (ffc23 e s))) (some e.a1)) (ffs1 s),
   fadd (fadd (some gos) (fmul (some e.a2) (ffs2 e s))) (fmul (some e.a3) (ffs23 e s)))

/-- o4 under float semantics. -/
def ffo4 (e : Exc) (s : ExcState) (gos : ℝ) : P :=
  (fmul (fadd (fadd (fadd (fmul (some e.a4) (ffc234 e s)) (fmul (some e.a3) (ffc23 e s))) (fmul (some e.a2) (ffc2 e s))) (some e.a1)) (ffc1 s),
   fmul (fadd (fadd (fadd (fmul (some e.a4) (ffc234 e s)) (fmul (some e.a3) (ffc23 e s))) (fmul (some e.a2) (ffc2 e s))) (some e.a1)) (ffs1 s),
   fadd (fadd (fadd (some gos) (fmul (some e.a2) (ffs2 e s))) (fmul (some e.a3) (ffs23 e s))) (fmul (some e.a4) (ffs234 e s)))

/-- The six positions of draw_exc under float semantics. -/
def ffpositions (e : Exc) (s : ExcState) (gos : ℝ) : List P :=
  [((some 0 : F), (some 0 : F), (some 0 : F)),
   ((some 0 : F), (some 0 : F), (some gos : F)),
   ffo1 e s gos, ffo2 e s gos, ffo3 e s gos, ffo4 e s gos]

end FF

namespace Spec

/-- The inverse law-of-cosines step of the spec: the enclosed angle of a
triangle with fixed sides sa, sb and variable side sc. -/
def lawOfCosinesAngle (sa sb sc : ℝ) : ℝ :=
  Real.arccos ((sa ^ 2 + sb ^ 2 - sc ^ 2) / (2 * sa * sb))

/-- The direct law of cosines of the spec: the side subtending the angle g
in a triangle with adjacent sides sa and sb. -/
def lawOfCosinesSide (sa sb g : ℝ) : ℝ :=
  Real.sqrt (sa ^ 2 + sb ^ 2 - 2 * sa * sb * Real.cos g)

/-- Joint angle number i of the kinematic chain (i = 2 boom, 3 stick,
4 bucket), as recovered by draw_exc. -/
def jointAngle (e : Exc) (s : ExcState) : ℕ → ℝ
  | 2 => DrawExc.t2 e s
  | 3 => DrawExc.t3 e s
  | 4 => DrawExc.t4 e s
  | _ => 0

/-- The cumulative planar angle of link k: the sum of the joint angles
2..k, the empty sum (k = 1) being 0. -/
def cumAngle (e : Exc) (s : ExcState) (k : ℕ) : ℝ :=
  ∑ i in Finset.Icc 2 k, jointAngle e s i

/-- Link length number k (k = 1..4 give a1..a4). -/
def linkLen (e : Exc) : ℕ → ℝ
  | 1 => e.a1
  | 2 => e.a2
  | 3 => e.a3
  | 4 => e.a4
  | _ => 0

/-- Horizontal reach of link-end k: the sum over i up to k of link length i
times the cosine of the cumulative angle of link i. -/
def reach (e : Exc) (s : ExcState) (k : ℕ) : ℝ :=
  ∑ i in Finset.Icc 1 k, linkLen e i * Real.cos (cumAngle e s i)

/-- Vertical elevation of link-end k above the ground offset: the sum over
i up to k of link length i times the sine of the cumulative angle of i. -/
def elevation (e : Exc) (s : ExcState) (k : ℕ) : ℝ :=
  ∑ i in Finset.Icc 1 k, linkLen e i * Real.sin (cumAngle e s i)

/-- The spec formula for link-end position k: the horizontal reach rotated
about the vertical axis by the swing angle, the elevation added to the
ground offset on z. -/
def linkEnd (e : Exc) (s : ExcState) (gos : ℝ) (k : ℕ) : Point3 :=
  ⟨reach e s k * Real.cos s.sw, reach e s k * Real.sin s.sw,
   gos + elevation e s k⟩

end Spec

/-- A concrete geometry table used to instantiate the theorems: link
lengths 1, cylinder offsets 0, all pivot distances 1, all fixed angular
offsets 0. -/
def e0 : Exc :=
  ⟨1, 1, 1, 1, 0, 0, 0, 1, 1, 1, 1, 1, 1, 1, 1, 1, 0, 0, 0, 0, 0, 0, 0⟩

/-- The zero actuator state (0, 0, 0, 0). -/
def s0 : ExcState := ⟨0, 0, 0, 0⟩

/-- A state differing from s0 only in the swing angle. -/
def sA : ExcState := ⟨0, 0, 0, 1⟩

/-- A state differing from s0 only in the cylinder extensions. -/
def sB : ExcState := ⟨1, 2, 3, 0⟩

/-- A state whose boom extension 3 drives the boom arccos argument to
-7/2, outside the closed interval from -1 to 1. -/
def sBad : ExcState := ⟨3, 0, 0, 0⟩

lemma FF.fdiv_some {a b : ℝ} (h : b ≠ 0) :
    FF.fdiv (some a) (some b) = some (a / b) := by
  simp only [FF.fdiv]
  rw [if_neg h]

lemma FF.farccos_some {a : ℝ} (h1 : -1 ≤ a) (h2 : a ≤ 1) :
    FF.farccos (some a) = some (Real.arccos a) := by
  simp only [FF.farccos]
  rw [if_pos ⟨h1, h2⟩]

lemma FF.farccos_of_out {a : ℝ} (h : ¬(-1 ≤ a ∧ a ≤ 1)) :
    FF.farccos (some a) = none := by
  simp only [FF.farccos]
  rw [if_neg h]

lemma FF.fsqrt_some {a : ℝ} (h : 0 ≤ a) :
    FF.fsqrt (some a) = some (Real.sqrt a) := by
  simp only [FF.fsqrt]
  rw [if_pos h]

lemma Spec.cumAngle_one (e : Exc) (s : ExcState) : Spec.cumAngle e s 1 = 0 := by
  unfold Spec.cumAngle
  rw [Finset.Icc_eq_empty (by norm_num), Finset.sum_empty]

lemma Spec.cumAngle_two (e : Exc) (s : ExcState) :
    Spec.cumAngle e s 2 = DrawExc.t2 e s := by
  unfold Spec.cumAngle
  rw [Finset.Icc_self, Finset.sum_singleton]
  rfl

lemma Spec.cumAngle_three (e : Exc) (s : ExcState) :
    Spec.cumAngle e s 3 = DrawExc.t2 e s + DrawExc.t3 e s := by
  unfold Spec.cumAngle
  rw [show Finset.Icc 2 3 = {2, 3} by decide, Finset.sum_insert (by decide),
    Finset.sum_singleton]
  rfl

lemma Spec.cumAngle_four (e : Exc) (s : ExcState) :
    Spec.cumAngle e s 4 = DrawExc.t2 e s + DrawExc.t3 e s + DrawExc.t4 e s := by
  unfold Spec.cumAngle
  rw [show Finset.Icc 2 4 = {2, 3, 4} by decide, Finset.sum_insert (by decide),
    Finset.sum_insert (by decide), Finset.sum_singleton]
  show DrawExc.t2 e s + (DrawExc.t3 e s + DrawExc.t4 e s) = _
  ring

lemma Spec.reach_one (e : Exc) (s : ExcState) : Spec.reach e s 1 = e.a1 := by
  unfold Spec.reach
  rw [Finset.Icc_self, Finset.sum_singleton, Spec.cumAngle_one]
  show e.a1 * Real.cos 0 = e.a1
  rw [Real.cos_zero, mul_one]

lemma Spec.reach_two (e : Exc) (s : ExcState) :
    Spec.reach e s 2 = e.a1 + e.a2 * Real.cos (DrawExc.t2 e s) := by
  unfold Spec.reach
  rw [show Finset.Icc 1 2 = {1, 2} by decide, Finset.sum_insert (by decide),
    Finset.sum_singleton, Spec.cumAngle_one, Spec.cumAngle_two]
  show e.a1 * Real.cos 0 + e.a2 * Real.cos (DrawExc.t2 e s) = _
  rw [Real.cos_zero]
  ring

lemma Spec.reach_three (e : Exc) (s : ExcState) :
    Spec.reach e s 3
      = e.a1 + e.a2 * Real.cos (DrawExc.t2 e s)
        + e.a3 * Real.cos (DrawExc.t2 e s + DrawExc.t3 e s) := by
  unfold Spec.reach
  rw [show Finset.Icc 1 3 = {1, 2, 3} by decide, Finset.sum_insert (by decide),
    Finset.sum_insert (by decide), Finset.sum_singleton, Spec.cumAngle_one,
    Spec.cumAngle_two, Spec.cumAngle_three]
  show e.a1 * Real.cos 0 + (e.a2 * Real.cos (DrawExc.t2 e s)
    + e.a3 * Real.cos (DrawExc.t2 e s + DrawExc.t3 e s)) = _
  rw [Real.cos_zero]
  ring

lemma Spec.reach_four (e : Exc) (s : ExcState) :
    Spec.reach e s 4
      = e.a1 + e.a2 * Real.cos (DrawExc.t2 e s)
        + e.a3 * Real.cos (DrawExc.t2 e s + DrawExc.t3 e s)
        + e.a4 * Real.cos (DrawExc.t2 e s + DrawExc.t3 e s + DrawExc.t4 e s) := by
  unfold Spec.reach
  rw [show Finset.Icc 1 4 = {1, 2, 3, 4} by decide, Finset.sum_insert (by decide),
    Finset.sum_insert (by decide), Finset.sum_insert (by decide),
    Finset.sum_singleton, Spec.cumAngle_one, Spec.cumAngle_two,
    Spec.cumAngle_three, Spec.cumAngle_four]
  show e.a1 * Real.cos 0 + (e.a2 * Real.cos (DrawExc.t2 e s)
    + (e.a3 * Real.cos (DrawExc.t2 e s + DrawExc.t3 e s)
      + e.a4 * Real.cos (DrawExc.t2 e s + DrawExc.t3 e s + DrawExc.t4 e s))) = _
  rw [Real.cos_zero]
  ring

lemma Spec.elevation_one (e : Exc) (s : ExcState) : Spec.elevation e s 1 = 0 := by
  unfold Spec.elevation
  rw [Finset.Icc_self, Finset.sum_singleton, Spec.cumAngle_one]
  show e.a1 * Real.sin 0 = 0
  rw [Real.sin_zero, mul_zero]

lemma Spec.elevation_two (e : Exc) (s : ExcState) :
    Spec.elevation e s 2 = e.a2 * Real.sin (DrawExc.t2 e s) := by
  unfold Spec.elevation
  rw [show Finset.Icc 1 2 = {1, 2} by decide, Finset.sum_insert (by decide),
    Finset.sum_singleton, Spec.cumAngle_one, Spec.cumAngle_two]
  show e.a1 * Real.sin 0 + e.a2 * Real.sin (DrawExc.t2 e s) = _
  rw [Real.sin_zero]
  ring

lemma Spec.elevation_three (e : Exc) (s : ExcState) :
    Spec.elevation e s 3
      = e.a2 * Real.sin (DrawExc.t2 e s)
        + e.a3 * Real.sin (DrawExc.t2 e s + DrawExc.t3 e s) := by
  unfold Spec.elevation
  rw [show Finset.Icc 1 3 = {1, 2, 3} by decide, Finset.sum_insert (by decide),
    Finset.sum_insert (by decide), Finset.sum_singleton, Spec.cumAngle_one,
    Spec.cumAngle_two, Spec.cumAngle_three]
  show e.a1 * Real.sin 0 + (e.a2 * Real.sin (DrawExc.t2 e s)
    + e.a3 * Real.sin (DrawExc.t2 e s + DrawExc.t3 e s)) = _
  rw [Real.sin_zero]
  ring

lemma Spec.elevation_four (e : Exc) (s : ExcState) :
    Spec.elevation e s 4
      = e.a2 * Real.sin (DrawExc.t2 e s)
        + e.a3 * Real.sin (DrawExc.t2 e s + DrawExc.t3 e s)
        + e.a4 * Real.sin (DrawExc.t2 e s + DrawExc.t3 e s + DrawExc.t4 e s) := by
  unfold Spec.elevation
  rw [show Finset.Icc 1 4 = {1, 2, 3, 4} by decide, Finset.sum_insert (by decide),
    Finset.sum_insert (by decide), Finset.sum_insert (by decide),
    Finset.sum_singleton, Spec.cumAngle_one, Spec.cumAngle_two,
    Spec.cumAngle_three, Spec.cumAngle_four]
  show e.a1 * Real.sin 0 + (e.a2 * Real.sin (DrawExc.t2 e s)
    + (e.a3 * Real.sin (DrawExc.t2 e s + DrawExc.t3 e s)
      + e.a4 * Real.sin (DrawExc.t2 e s + DrawExc.t3 e s + DrawExc.t4 e s))) = _
  rw [Real.sin_zero]
  ring

lemma DrawExc.dist3_eq {p q : Point3} {a : ℝ} (ha : 0 ≤ a)
    (h : (q.x - p.x) ^ 2 + (q.y - p.y) ^ 2 + (q.z - p.z) ^ 2 = a ^ 2) :
    DrawExc.dist3 p q = a := by
  unfold DrawExc.dist3
  rw [h]
  exact Real.sqrt_sq ha

lemma DrawExc.t2_swing_shift (e : Exc) (s : ExcState) (d : ℝ) :
    DrawExc.t2 e (ExcState.mk s.bm s.sk s.bk (s.sw + d)) = DrawExc.t2 e s := rfl

lemma DrawExc.t3_swing_shift (e : Exc) (s : ExcState) (d : ℝ) :
    DrawExc.t3 e (ExcState.mk s.bm s.sk s.bk (s.sw + d)) = DrawExc.t3 e s := rfl

lemma DrawExc.t4_swing_shift (e : Exc) (s : ExcState) (d : ℝ) :
    DrawExc.t4 e (ExcState.mk s.bm s.sk s.bk (s.sw + d)) = DrawExc.t4 e s := rfl

lemma DrawExc.rotZ_gnd (d : ℝ) : DrawExc.rotZ d DrawExc.gnd = DrawExc.gnd := by
  unfold DrawExc.rotZ DrawExc.gnd
  simp only [Point3.mk.injEq]
  refine ⟨by ring, by ring, trivial⟩

lemma DrawExc.rotZ_base (d gos : ℝ) :
    DrawExc.rotZ d (DrawExc.base gos) = DrawExc.base gos := by
  unfold DrawExc.rotZ DrawExc.base
  simp only [Point3.mk.injEq]
  refine ⟨by ring, by ring, trivial⟩

lemma DrawExc.rotZ_o1 (e : Exc) (s : ExcState) (d gos : ℝ) :
    DrawExc.rotZ d (DrawExc.o1 e s gos)
      = DrawExc.o1 e (ExcState.mk s.bm s.sk s.bk (s.sw + d)) gos := by
  unfold DrawExc.o1 DrawExc.rotZ DrawExc.c1 DrawExc.s1 DrawExc.t1
  dsimp only
  simp only [Point3.mk.injEq]
  refine ⟨?_, ?_, trivial⟩
  · rw [Real.cos_add s.sw d]; ring
  · rw [Real.sin_add s.sw d]; ring

lemma DrawExc.rotZ_o2 (e : Exc) (s : ExcState) (d gos : ℝ) :
    DrawExc.rotZ d (DrawExc.o2 e s gos)
      = DrawExc.o2 e (ExcState.mk s.bm s.sk s.bk (s.sw + d)) gos := by
  unfold DrawExc.o2 DrawExc.rotZ DrawExc.c1 DrawExc.c2 DrawExc.s1 DrawExc.s2
    DrawExc.t1
  dsimp only
  rw [DrawExc.t2_swing_shift]
  simp only [Point3.mk.injEq]
  refine ⟨?_, ?_, trivial⟩
  · rw [Real.cos_add s.sw d]; ring
  · rw [Real.sin_add s.sw d]; ring

lemma DrawExc.rotZ_o3 (e : Exc) (s : ExcState) (d gos : ℝ) :
    DrawExc.rotZ d (DrawExc.o3 e s gos)
      = DrawExc.o3 e (ExcState.mk s.bm s.sk s.bk (s.sw + d)) gos := by
  unfold DrawExc.o3 DrawExc.rotZ DrawExc.c1 DrawExc.c2 DrawExc.c23 DrawExc.s1
    DrawExc.s2 DrawExc.s23 DrawExc.t1
  dsimp only
  rw [DrawExc.t2_swing_shift, DrawExc.t3_swing_shift]
  simp only [Point3.mk.injEq]
  refine ⟨?_, ?_, trivial⟩
  · rw [Real.cos_add s.sw d]; ring
  · rw [Real.sin_add s.sw d]; ring

lemma DrawExc.rotZ_o4 (e : Exc) (s : ExcState) (d gos : ℝ) :
    DrawExc.rotZ d (DrawExc.o4 e s gos)
      = DrawExc.o4 e (ExcState.mk s.bm s.sk s.bk (s.sw + d)) gos := by
  unfold DrawExc.o4 DrawExc.rotZ DrawExc.c1 DrawExc.c2 DrawExc.c23 DrawExc.c234
    DrawExc.s1 DrawExc.s2 DrawExc.s23 DrawExc.s234 DrawExc.t1
  dsimp only
  rw [DrawExc.t2_swing_shift, DrawExc.t3_swing_shift, DrawExc.t4_swing_shift]
  simp only [Point3.mk.injEq]
  refine ⟨?_, ?_, trivial⟩
  · rw [Real.cos_add s.sw d]; ring
  · rw [Real.sin_add s.sw d]; ring

lemma FF.angles_eq (e : Exc) (s : ExcState)
    (h1d : 2 * e.r_o1b * e.r_o1a ≠ 0)
    (h1l : -1 ≤ DrawExc.a_a1b_arg e s) (h1u : DrawExc.a_a1b_arg e s ≤ 1)
    (h2d : 2 * e.r_o2c * e.r_o2d ≠ 0)
    (h2l : -1 ≤ DrawExc.a_c2d_arg e s) (h2u : DrawExc.a_c2d_arg e s ≤ 1)
    (h3d : 2 * e.r_ef * e.r_fh ≠ 0)
    (h3l : -1 ≤ DrawExc.a_efh_arg e s) (h3u : DrawExc.a_efh_arg e s ≤ 1)
    (h4d : 2 * DrawExc.r_o3h e s * e.r_o3f ≠ 0)
    (h4l : -1 ≤ DrawExc.a_f3h_arg e s) (h4u : DrawExc.a_f3h_arg e s ≤ 1)
    (h5d : 2 * DrawExc.r_o3h e s * e.r_o3g ≠ 0)
    (h5l : -1 ≤ DrawExc.a_h3g_arg e s) (h5u : DrawExc.a_h3g_arg e s ≤ 1) :
    FF.fft2 e s = some (DrawExc.t2 e s)
    ∧ FF.fft3 e s = some (DrawExc.t3 e s)
    ∧ FF.fft4 e s = some (DrawExc.t4 e s) := by
  have e1 : FF.ffa_a1b e s = some (DrawExc.a_a1b e s) := by
    unfold FF.ffa_a1b
    rw [FF.fdiv_some h1d]
    exact FF.farccos_some h1l h1u
  have et2 : FF.fft2 e s = some (DrawExc.t2 e s) := by
    unfold FF.fft2
    rw [e1]
    rfl
  have e2 : FF.ffa_c2d e s = some (DrawExc.a_c2d e s) := by
    unfold FF.ffa_c2d
    rw [FF.fdiv_some h2d]
    exact FF.farccos_some h2l h2u
  have et3 : FF.fft3 e s = some (DrawExc.t3 e s) := by
    unfold FF.fft3
    rw [e2]
    rfl
  have e3 : FF.ffa_efh e s = some (DrawExc.a_efh e s) := by
    unfold FF.ffa_efh
    rw [FF.fdiv_some h3d]
    exact FF.farccos_some h3l h3u
  have ehf : FF.ffa_hf3 e s = some (DrawExc.a_hf3 e s) := by
    unfold FF.ffa_hf3
    rw [e3]
    rfl
  have hsq : 0 ≤ e.r_o3f ^ 2 + e.r_fh ^ 2
      - 2 * e.r_o3f * e.r_fh * Real.cos (DrawExc.a_hf3 e s) := by
    nlinarith [sq_nonneg (e.r_o3f - e.r_fh * Real.cos (DrawExc.a_hf3 e s)),
      Real.cos_sq_le_one (DrawExc.a_hf3 e s), sq_nonneg e.r_fh]
  have er : FF.ffr_o3h e s = some (DrawExc.r_o3h e s) := by
    unfold FF.ffr_o3h
    rw [ehf]
    exact FF.fsqrt_some hsq
  have e4 : FF.ffa_f3h e s = some (DrawExc.a_f3h e s) := by
    unfold FF.ffa_f3h
    rw [er]
    show FF.farccos (FF.fdiv
      (some (DrawExc.r_o3h e s ^ 2 + e.r_o3f ^ 2 - e.r_fh ^ 2))
      (some (2 * DrawExc.r_o3h e s * e.r_o3f))) = _
    rw [FF.fdiv_some h4d]
    exact FF.farccos_some h4l h4u
  have e5 : FF.ffa_h3g e s = some (DrawExc.a_h3g e s) := by
    unfold FF.ffa_h3g
    rw [er]
    show FF.farccos (FF.fdiv
      (some (DrawExc.r_o3h e s ^ 2 + e.r_o3g ^ 2 - e.r_gh ^ 2))
      (some (2 * DrawExc.r_o3h e s * e.r_o3g))) = _
    rw [FF.fdiv_some h5d]
    exact FF.farccos_some h5l h5u
  have et4 : FF.fft4 e s = some (DrawExc.t4 e s) := by
    unfold FF.fft4
    rw [e4, e5]
    rfl
  exact ⟨et2, et3, et4⟩

lemma FF.positions_eq (e : Exc) (s : ExcState) (gos : ℝ)
    (h1d : 2 * e.r_o1b * e.r_o1a ≠ 0)
    (h1l : -1 ≤ DrawExc.a_a1b_arg e s) (h1u : DrawExc.a_a1b_arg e s ≤ 1)
    (h2d : 2 * e.r_o2c * e.r_o2d ≠ 0)
    (h2l : -1 ≤ DrawExc.a_c2d_arg e s) (h2u : DrawExc.a_c2d_arg e s ≤ 1)
    (h3d : 2 * e.r_ef * e.r_fh ≠ 0)
    (h3l : -1 ≤ DrawExc.a_efh_arg e s) (h3u : DrawExc.a_efh_arg e s ≤ 1)
    (h4d : 2 * DrawExc.r_o3h e s * e.r_o3f ≠ 0)
    (h4l : -1 ≤ DrawExc.a_f3h_arg e s) (h4u : DrawExc.a_f3h_arg e s ≤ 1)
    (h5d : 2 * DrawExc.r_o3h e s * e.r_o3g ≠ 0)
    (h5l : -1 ≤ DrawExc.a_h3g_arg e s) (h5u : DrawExc.a_h3g_arg e s ≤ 1) :
    FF.ffpositions e s gos = (DrawExc.positions e s gos).map
      (fun p => (((some p.x : FF.F), (some p.y : FF.F), (some p.z : FF.F)) : FF.P)) := by
  obtain ⟨h2, h3, h4⟩ := FF.angles_eq e s h1d h1l h1u h2d h2l h2u h3d h3l h3u
    h4d h4l h4u h5d h5l h5u
  unfold FF.ffpositions DrawExc.positions
  simp only [List.map_cons, List.map_nil]
  unfold FF.ffo1 FF.ffo2 FF.ffo3 FF.ffo4 FF.ffc1 FF.ffc2 FF.ffc23 FF.ffc234
    FF.ffs1 FF.ffs2 FF.ffs23 FF.ffs234 FF.fft1
  rw [h2, h3, h4]
  rfl

/-- C1: the code has no checked arccos domain guard.  At the geometry
table e0 and state sBad the boom law-of-cosines argument is -7/2, outside
the closed interval from -1 to 1; np.arccos then yields NaN, the boom
angle t2 is NaN, and the NaN propagates silently into the position
coordinates that are plotted (the x coordinate of o2 and the z coordinate
of o4 carry no numeric value), instead of a DomainError being reported.
Boundary arguments exactly 1 and -1 do succeed. -/
theorem nan_propagates_into_positions :
    DrawExc.a_a1b_arg e0 sBad = -7 / 2
    ∧ ¬(-1 ≤ DrawExc.a_a1b_arg e0 sBad ∧ DrawExc.a_a1b_arg e0 sBad ≤ 1)
    ∧ FF.fft2 e0 sBad = none
    ∧ (FF.ffo2 e0 sBad DrawExc.gnd_offset_default).1 = none
    ∧ (FF.ffo4 e0 sBad DrawExc.gnd_offset_default).2.2 = none
    ∧ FF.farccos (some 1) = some 0
    ∧ FF.farccos (some (-1)) = some π := by
  have harg : DrawExc.a_a1b_arg e0 sBad = -7 / 2 := by
    unfold DrawExc.a_a1b_arg DrawExc.r_c1 e0 sBad
    norm_num
  have hin : ¬(-1 ≤ DrawExc.a_a1b_arg e0 sBad ∧ DrawExc.a_a1b_arg e0 sBad ≤ 1) := by
    rw [harg]
    norm_num
  have ht2 : FF.fft2 e0 sBad = none := by
    unfold FF.fft2 FF.ffa_a1b
    rw [FF.fdiv_some (by norm_num [e0] : (2 * e0.r_o1b * e0.r_o1a : ℝ) ≠ 0)]
    show (FF.farccos (some (DrawExc.a_a1b_arg e0 sBad))).map
      (fun v => v - e0.a_b12 - e0.a_a1x1) = none
    rw [FF.farccos_of_out hin]
    rfl
  have ho2 : (FF.ffo2 e0 sBad DrawExc.gnd_offset_default).1 = none := by
    have hx : (FF.ffo2 e0 sBad DrawExc.gnd_offset_default).1
        = FF.fmul (FF.fadd (FF.fmul (some e0.a2) (FF.fcos (FF.fft2 e0 sBad)))
            (some e0.a1)) (FF.ffc1 sBad) := rfl
    rw [hx, ht2]
    rfl
  have ho4 : (FF.ffo4 e0 sBad DrawExc.gnd_offset_default).2.2 = none := by
    have hz : (FF.ffo4 e0 sBad DrawExc.gnd_offset_default).2.2
        = FF.fadd (FF.fadd (FF.fadd (some DrawExc.gnd_offset_default)
            (FF.fmul (some e0.a2) (FF.fsin (FF.fft2 e0 sBad))))
            (FF.fmul (some e0.a3) (FF.fsin (FF.fadd (FF.fft2 e0 sBad) (FF.fft3 e0 sBad)))))
            (FF.fmul (some e0.a4) (FF.fsin (FF.fadd (FF.fadd (FF.fft2 e0 sBad)
              (FF.fft3 e0 sBad)) (FF.fft4 e0 sBad)))) := rfl
    rw [hz, ht2]
    rfl
  have hb1 : FF.farccos (some 1) = some 0 := by
    rw [FF.farccos_some (by norm_num) (by norm_num), Real.arccos_one]
  have hb2 : FF.farccos (some (-1)) = some π := by
    rw [FF.farccos_some (by norm_num) (by norm_num), Real.arccos_neg_one]
  exact ⟨harg, hin, ht2, ho2, ho4, hb1, hb2⟩

/-- C2, counterexample: the claim says draw_exc outputs exactly 5 joint
positions, but at any concrete input the code builds 6 points (gnd, base,
o1, o2, o3, o4). -/
theorem positions_count_ne_five :
    (DrawExc.positions e0 s0 DrawExc.gnd_offset_default).length ≠ 5 := by
  norm_num [DrawExc.positions]

/-- C2, amended: draw_exc outputs an ordered sequence of exactly 6
positions (ground at the origin, base at origin plus the ground offset on
z, and the four computed link-end positions o1..o4), connected as exactly
5 line segments joining consecutive positions. -/
theorem positions_six_segments_five :
    ∀ (e : Exc) (s : ExcState) (gos : ℝ),
      DrawExc.positions e s gos
        = [DrawExc.gnd, DrawExc.base gos, DrawExc.o1 e s gos, DrawExc.o2 e s gos,
           DrawExc.o3 e s gos, DrawExc.o4 e s gos]
      ∧ (DrawExc.positions e s gos).length = 6
      ∧ DrawExc.segments e s gos
          = (DrawExc.positions e s gos).zip (DrawExc.positions e s gos).tail
      ∧ (DrawExc.segments e s gos).length = 5
      ∧ DrawExc.gnd = Point3.mk 0 0 0
      ∧ DrawExc.base gos = Point3.mk 0 0 gos :=
  fun e s gos => ⟨rfl, rfl, rfl, rfl, rfl, rfl⟩

/-- C3: each link-end position k = 1..4 equals the spec formula: the
cumulative horizontal reach (sum over i up to k of link length i times the
cosine of the cumulative joint angle of link i, the cumulative angle of
link 1 being the empty sum 0) rotated by the swing angle on x and y, and
the ground offset plus the cumulative vertical elevation on z. -/
theorem link_end_positions_match_planar_formula :
    ∀ (e : Exc) (s : ExcState) (gos : ℝ),
      DrawExc.o1 e s gos = Spec.linkEnd e s gos 1
      ∧ DrawExc.o2 e s gos = Spec.linkEnd e s gos 2
      ∧ DrawExc.o3 e s gos = Spec.linkEnd e s gos 3
      ∧ DrawExc.o4 e s gos = Spec.linkEnd e s gos 4 := by
  intro e s gos
  refine ⟨?_, ?_, ?_, ?_⟩
  · refine Point3.ext ?_ ?_ ?_ <;>
      (simp only [DrawExc.o1, Spec.linkEnd, DrawExc.c1, DrawExc.s1, DrawExc.t1,
        Spec.reach_one, Spec.elevation_one]; try ring)
  · refine Point3.ext ?_ ?_ ?_ <;>
      (simp only [DrawExc.o2, Spec.linkEnd, DrawExc.c1, DrawExc.c2, DrawExc.s1,
        DrawExc.s2, DrawExc.t1, Spec.reach_two, Spec.elevation_two]; try ring)
  · refine Point3.ext ?_ ?_ ?_ <;>
      (simp only [DrawExc.o3, Spec.linkEnd, DrawExc.c1, DrawExc.c2, DrawExc.c23,
        DrawExc.s1, DrawExc.s2, DrawExc.s23, DrawExc.t1, Spec.reach_three,
        Spec.elevation_three]; try ring)
  · refine Point3.ext ?_ ?_ ?_ <;>
      (simp only [DrawExc.o4, Spec.linkEnd, DrawExc.c1, DrawExc.c2, DrawExc.c23,
        DrawExc.c234, DrawExc.s1, DrawExc.s2, DrawExc.s23, DrawExc.s234,
        DrawExc.t1, Spec.reach_four, Spec.elevation_four]; try ring)

/-- C4: each of the three joint angles is recovered by the inverse law of
cosines on an effective side equal to the actuator extension plus the
fixed cylinder offset, combined with the fixed angular offsets of the
chain (for the bucket, the raw enclosed angle a_efh starts the two-stage
solve whose derived angles a_f3h and a_h3g are combined with the fixed
offsets into t4). -/
theorem joint_angles_from_law_of_cosines :
    ∀ (e : Exc) (s : ExcState),
      DrawExc.t2 e s
        = Spec.lawOfCosinesAngle e.r_o1b e.r_o1a (s.bm + e.r_cyl1)
          - e.a_b12 - e.a_a1x1
      ∧ DrawExc.t3 e s
        = 3 * π - e.a_12c
          - Spec.lawOfCosinesAngle e.r_o2c e.r_o2d (s.sk + e.r_cyl2) - e.a_d23
      ∧ DrawExc.a_efh e s
        = Spec.lawOfCosinesAngle e.r_ef e.r_fh (s.bk + e.r_cyl3)
      ∧ DrawExc.t4 e s
        = 3 * π - DrawExc.a_f3h e s - DrawExc.a_h3g e s - e.a_g34 - e.a_23d :=
  fun e s => ⟨rfl, rfl, rfl, rfl⟩

/-- C5: the bucket angle is a two-stage solve: the auxiliary enclosed
angle a_efh by inverse law of cosines, the auxiliary diagonal r_o3h by the
direct law of cosines from the supplementary angle pi - (a_dfe + a_efh),
two further inverse law-of-cosines applications a_f3h and a_h3g on that
diagonal, and the final bucket angle as their combination with the fixed
angular offsets. -/
theorem bucket_two_stage_solve :
    ∀ (e : Exc) (s : ExcState),
      DrawExc.a_efh e s = Spec.lawOfCosinesAngle e.r_ef e.r_fh (DrawExc.r_c3 e s)
      ∧ DrawExc.r_o3h e s
        = Spec.lawOfCosinesSide e.r_o3f e.r_fh (π - (e.a_dfe + DrawExc.a_efh e s))
      ∧ DrawExc.a_f3h e s
        = Spec.lawOfCosinesAngle (DrawExc.r_o3h e s) e.r_o3f e.r_fh
      ∧ DrawExc.a_h3g e s
        = Spec.lawOfCosinesAngle (DrawExc.r_o3h e s) e.r_o3g e.r_gh
      ∧ DrawExc.t4 e s
        = 3 * π - DrawExc.a_f3h e s - DrawExc.a_h3g e s - e.a_g34 - e.a_23d := by
  intro e s
  refine ⟨rfl, ?_, rfl, rfl, rfl⟩
  have h : DrawExc.a_hf3 e s = π - (e.a_dfe + DrawExc.a_efh e s) := by
    unfold DrawExc.a_hf3
    ring
  show DrawExc.r_o3h e s
    = Spec.lawOfCosinesSide e.r_o3f e.r_fh (π - (e.a_dfe + DrawExc.a_efh e s))
  rw [← h]
  rfl

/-- C6: consecutive returned positions form a connected chain whose
segment lengths equal the link lengths exactly over the reals: the
ground to base segment has magnitude the ground offset, and the following
segments have magnitudes a1, a2, a3 (and a4 for the fourth link segment
the code also draws). -/
theorem chain_segment_lengths (e : Exc) (s : ExcState) (gos : ℝ)
    (hg : 0 ≤ gos) (h1 : 0 ≤ e.a1) (h2 : 0 ≤ e.a2) (h3 : 0 ≤ e.a3)
    (h4 : 0 ≤ e.a4) :
    DrawExc.dist3 DrawExc.gnd (DrawExc.base gos) = gos
    ∧ DrawExc.dist3 (DrawExc.base gos) (DrawExc.o1 e s gos) = e.a1
    ∧ DrawExc.dist3 (DrawExc.o1 e s gos) (DrawExc.o2 e s gos) = e.a2
    ∧ DrawExc.dist3 (DrawExc.o2 e s gos) (DrawExc.o3 e s gos) = e.a3
    ∧ DrawExc.dist3 (DrawExc.o3 e s gos) (DrawExc.o4 e s gos) = e.a4 := by
  refine ⟨?_, ?_, ?_, ?_, ?_⟩
  · refine DrawExc.dist3_eq hg ?_
    simp only [DrawExc.gnd, DrawExc.base]
    ring
  · refine DrawExc.dist3_eq h1 ?_
    simp only [DrawExc.base, DrawExc.o1, DrawExc.c1, DrawExc.s1]
    linear_combination e.a1 ^ 2 * Real.sin_sq_add_cos_sq (DrawExc.t1 s)
  · refine DrawExc.dist3_eq h2 ?_
    simp only [DrawExc.o1, DrawExc.o2, DrawExc.c1, DrawExc.c2, DrawExc.s1,
      DrawExc.s2]
    linear_combination
      (e.a2 ^ 2 * Real.cos (DrawExc.t2 e s) ^ 2)
          * Real.sin_sq_add_cos_sq (DrawExc.t1 s)
        + e.a2 ^ 2 * Real.sin_sq_add_cos_sq (DrawExc.t2 e s)
  · refine DrawExc.dist3_eq h3 ?_
    simp only [DrawExc.o2, DrawExc.o3, DrawExc.c1, DrawExc.c2, DrawExc.c23,
      DrawExc.s1, DrawExc.s2, DrawExc.s23]
    linear_combination
      (e.a3 ^ 2 * Real.cos (DrawExc.t2 e s + DrawExc.t3 e s) ^ 2)
          * Real.sin_sq_add_cos_sq (DrawExc.t1 s)
        + e.a3 ^ 2 * Real.sin_sq_add_cos_sq (DrawExc.t2 e s + DrawExc.t3 e s)
  · refine DrawExc.dist3_eq h4 ?_
    simp only [DrawExc.o3, DrawExc.o4, DrawExc.c1, DrawExc.c2, DrawExc.c23,
      DrawExc.c234, DrawExc.s1, DrawExc.s2, DrawExc.s23, DrawExc.s234]
    linear_combination
      (e.a4 ^ 2 * Real.cos (DrawExc.t2 e s + DrawExc.t3 e s + DrawExc.t4 e s) ^ 2)
          * Real.sin_sq_add_cos_sq (DrawExc.t1 s)
        + e.a4 ^ 2
          * Real.sin_sq_add_cos_sq (DrawExc.t2 e s + DrawExc.t3 e s + DrawExc.t4 e s)

/-- C6 witness: the chain-length property instantiated at the concrete
table e0, state s0 and the default ground offset. -/
theorem chain_segment_lengths_witness :
    DrawExc.dist3 DrawExc.gnd (DrawExc.base DrawExc.gnd_offset_default)
      = DrawExc.gnd_offset_default
    ∧ DrawExc.dist3 (DrawExc.base DrawExc.gnd_offset_default)
        (DrawExc.o1 e0 s0 DrawExc.gnd_offset_default) = e0.a1
    ∧ DrawExc.dist3 (DrawExc.o1 e0 s0 DrawExc.gnd_offset_default)
        (DrawExc.o2 e0 s0 DrawExc.gnd_offset_default) = e0.a2
    ∧ DrawExc.dist3 (DrawExc.o2 e0 s0 DrawExc.gnd_offset_default)
        (DrawExc.o3 e0 s0 DrawExc.gnd_offset_default) = e0.a3
    ∧ DrawExc.dist3 (DrawExc.o3 e0 s0 DrawExc.gnd_offset_default)
        (DrawExc.o4 e0 s0 DrawExc.gnd_offset_default) = e0.a4 :=
  chain_segment_lengths e0 s0 DrawExc.gnd_offset_default
    (by norm_num [DrawExc.gnd_offset_default]) (by norm_num [e0])
    (by norm_num [e0]) (by norm_num [e0]) (by norm_num [e0])

/-- C7: changing only the swing angle by d while holding the three
cylinder extensions fixed maps every returned position by the rotation by
d about the vertical axis through the origin (rotZ), which leaves every z
coordinate unchanged and rotates every (x, y) pair by exactly d. -/
theorem swing_rotation_equivariance :
    ∀ (e : Exc) (s : ExcState) (d gos : ℝ),
      DrawExc.positions e (ExcState.mk s.bm s.sk s.bk (s.sw + d)) gos
        = (DrawExc.positions e s gos).map (DrawExc.rotZ d) := by
  intro e s d gos
  unfold DrawExc.positions
  simp only [List.map_cons, List.map_nil]
  rw [DrawExc.rotZ_gnd, DrawExc.rotZ_base, DrawExc.rotZ_o1, DrawExc.rotZ_o2,
    DrawExc.rotZ_o3, DrawExc.rotZ_o4]

/-- C8: the position computation is a pure deterministic function of the
geometry constants, the actuator state and the ground offset: two calls
with equal such inputs return equal position lists, whatever the styling
parameters lw, lock_axes and rotate are. -/
theorem draw_exc_deterministic :
    ∀ (e eb : Exc) (s sb : ExcState) (lw lwb : ℝ) (la lab ro rob : Bool)
      (gos gosb : ℝ),
      e = eb → s = sb → gos = gosb →
      DrawExc.draw_exc e s lw la ro gos = DrawExc.draw_exc eb sb lwb lab rob gosb := by
  intro e eb s sb lw lwb la lab ro rob gos gosb he hs hg
  subst he
  subst hs
  subst hg
  rfl

/-- C8 witness: two calls with identical geometry, state and ground offset
but different styling parameters return the same positions. -/
theorem draw_exc_deterministic_witness :
    DrawExc.draw_exc e0 s0 2 true true DrawExc.gnd_offset_default
      = DrawExc.draw_exc e0 s0 5 false false DrawExc.gnd_offset_default :=
  draw_exc_deterministic e0 e0 s0 s0 2 5 true false true false
    DrawExc.gnd_offset_default DrawExc.gnd_offset_default rfl rfl rfl

/-- C9: noninterference of the actuator components: t2 depends only on
state[0], t3 only on state[1], t4 only on state[2] and t1 only on
state[3]. -/
theorem actuator_noninterference :
    ∀ (e : Exc) (s sb : ExcState),
      (s.bm = sb.bm → DrawExc.t2 e s = DrawExc.t2 e sb)
      ∧ (s.sk = sb.sk → DrawExc.t3 e s = DrawExc.t3 e sb)
      ∧ (s.bk = sb.bk → DrawExc.t4 e s = DrawExc.t4 e sb)
      ∧ (s.sw = sb.sw → DrawExc.t1 s = DrawExc.t1 sb) := by
  intro e s sb
  refine ⟨?_, ?_, ?_, ?_⟩
  · intro h
    unfold DrawExc.t2 DrawExc.a_a1b DrawExc.a_a1b_arg DrawExc.r_c1
    rw [h]
  · intro h
    unfold DrawExc.t3 DrawExc.a_c2d DrawExc.a_c2d_arg DrawExc.r_c2
    rw [h]
  · intro h
    unfold DrawExc.t4 DrawExc.a_f3h DrawExc.a_f3h_arg DrawExc.a_h3g
      DrawExc.a_h3g_arg DrawExc.r_o3h DrawExc.a_hf3 DrawExc.a_efh
      DrawExc.a_efh_arg DrawExc.r_c3
    rw [h]
  · intro h
    unfold DrawExc.t1
    rw [h]

/-- C9 witness: two states differing only in the swing angle give the same
t2, t3, t4, and two states differing only in the extensions give the same
swing angle t1. -/
theorem actuator_noninterference_witness :
    DrawExc.t2 e0 s0 = DrawExc.t2 e0 sA
    ∧ DrawExc.t3 e0 s0 = DrawExc.t3 e0 sA
    ∧ DrawExc.t4 e0 s0 = DrawExc.t4 e0 sA
    ∧ DrawExc.t1 s0 = DrawExc.t1 sB :=
  ⟨(actuator_noninterference e0 s0 sA).1 rfl,
   (actuator_noninterference e0 s0 sA).2.1 rfl,
   (actuator_noninterference e0 s0 sA).2.2.1 rfl,
   (actuator_noninterference e0 s0 sB).2.2.2 rfl⟩

/-- C10: for every geometry table, actuator state and ground offset, the
first two returned points are the constant ground point (0, 0, 0) and base
point (0, 0, gos), and the keyword default of the per-call gnd_offset
parameter is 17.1. -/
theorem ground_and_base_constant :
    ∀ (e : Exc) (s : ExcState) (gos : ℝ),
      (DrawExc.positions e s gos).take 2 = [Point3.mk 0 0 0, Point3.mk 0 0 gos]
      ∧ DrawExc.gnd_offset_default = 17.1 :=
  fun e s gos => ⟨rfl, rfl⟩

end
